import Mathlib

/-!
Shallow embedding of `scripts/megameklab-conversion/enum_mappings.py`:
the MTF/BLK token-to-enum normalization module (alias tables, fallback
substring heuristics, era classification, and slug generation), together
with theorems about its mapping functions.

Python string primitives are modelled over ASCII: strip / upper / lower /
title / substring containment / replace are given as structural functions
on the character list of a Lean `String`, and Python dicts (whose keys are
pairwise distinct in all the tables below) are modelled as association
lists queried with `List.lookup`.
-/

namespace EnumMappings

/-- Python `str.strip()`: drop whitespace from both ends. -/
def pyStrip (s : String) : String :=
  String.mk (((s.toList.dropWhile Char.isWhitespace).reverse.dropWhile
    Char.isWhitespace).reverse)

/-- Python `str.upper()` (ASCII). -/
def pyUpper (s : String) : String :=
  String.mk (s.toList.map Char.toUpper)

/-- Python `str.lower()` (ASCII). -/
def pyLower (s : String) : String :=
  String.mk (s.toList.map Char.toLower)

/-- Does the first list occur at the head of the second? -/
def listStarts : List Char → List Char → Bool
  | [], _ => true
  | _ :: _, [] => false
  | p :: ps, c :: cs => p == c && listStarts ps cs

/-- Does `pat` occur as a contiguous run inside `l`? -/
def hasSub (l pat : List Char) : Bool :=
  match l with
  | [] => pat.isEmpty
  | _ :: rest => listStarts pat l || hasSub rest pat

/-- Python `pat in s` (substring containment). -/
def strContains (s pat : String) : Bool :=
  hasSub s.toList pat.toList

/-- Replace every non-overlapping occurrence of `pat` by `rep`, scanning left
to right and continuing after each inserted replacement; `fuel` bounds the
recursion and `l.length` steps always suffice for the non-empty patterns
used below, since each step consumes at least one character of `l`. -/
def replaceL : Nat → List Char → List Char → List Char → List Char
  | 0, l, _, _ => l
  | _ + 1, [], _, _ => []
  | fuel + 1, c :: rest, pat, rep =>
    if listStarts pat (c :: rest) then
      rep ++ replaceL fuel ((c :: rest).drop pat.length) pat rep
    else
      c :: replaceL fuel rest pat rep

/-- Python `s.replace(pat, rep)`. -/
def pyReplace (s pat rep : String) : String :=
  String.mk (replaceL s.toList.length s.toList pat.toList rep.toList)

/-- Python `str.title()` (ASCII): the first letter of each alphabetic run is
uppercased, the following letters are lowercased. -/
def titleAux : List Char → Bool → List Char
  | [], _ => []
  | c :: rest, prevAlpha =>
    if c.isAlpha then
      (if prevAlpha then c.toLower else c.toUpper) :: titleAux rest true
    else
      c :: titleAux rest false

/-- Python `str.title()` on strings. -/
def pyTitle (s : String) : String :=
  String.mk (titleAux s.toList false)

/-- `TECH_BASE_MAP` from the source. -/
def TECH_BASE_MAP : List (String × String) := [
  ("Inner Sphere", "INNER_SPHERE"),
  ("IS", "INNER_SPHERE"),
  ("IS Level 1", "INNER_SPHERE"),
  ("IS Level 2", "INNER_SPHERE"),
  ("IS Level 3", "INNER_SPHERE"),
  ("IS Level 4", "INNER_SPHERE"),
  ("Clan", "CLAN"),
  ("CL", "CLAN"),
  ("Clan Level 2", "CLAN"),
  ("Clan Level 3", "CLAN"),
  ("Mixed", "MIXED"),
  ("Mixed (IS Chassis)", "MIXED"),
  ("Mixed (Clan Chassis)", "MIXED"),
  ("Both", "BOTH"),
  ("0", "INNER_SPHERE"),
  ("1", "CLAN"),
  ("2", "MIXED")]

/-- `map_tech_base` from the source: exact lookup, then title-cased lookup,
then the default `INNER_SPHERE`. -/
def map_tech_base (value : String) : String :=
  match List.lookup (pyStrip value) TECH_BASE_MAP with
  | some v => v
  | none => (List.lookup (pyTitle (pyStrip value)) TECH_BASE_MAP).getD "INNER_SPHERE"

/-- `RULES_LEVEL_MAP` from the source. -/
def RULES_LEVEL_MAP : List (String × String) := [
  ("0", "INTRODUCTORY"),
  ("1", "STANDARD"),
  ("2", "ADVANCED"),
  ("3", "EXPERIMENTAL"),
  ("4", "UNOFFICIAL"),
  ("Introductory", "INTRODUCTORY"),
  ("Standard", "STANDARD"),
  ("Advanced", "ADVANCED"),
  ("Experimental", "EXPERIMENTAL"),
  ("Unofficial", "UNOFFICIAL"),
  ("IS Level 1", "INTRODUCTORY"),
  ("IS Level 2", "STANDARD"),
  ("IS Level 3", "ADVANCED"),
  ("IS Level 4", "EXPERIMENTAL"),
  ("Clan Level 2", "STANDARD"),
  ("Clan Level 3", "ADVANCED")]

/-- `map_rules_level` from the source: exact lookup, then the first digit of
the trimmed input looked up as a one-character key, then `STANDARD`. -/
def map_rules_level (value : String) : String :=
  match List.lookup (pyStrip value) RULES_LEVEL_MAP with
  | some v => v
  | none =>
    match (pyStrip value).toList.find? Char.isDigit with
    | some c => (List.lookup (String.singleton c) RULES_LEVEL_MAP).getD "STANDARD"
    | none => "STANDARD"

/-- `ENGINE_TYPE_MAP` from the source. -/
def ENGINE_TYPE_MAP : List (String × String) := [
  ("Fusion Engine", "FUSION"),
  ("Fusion Engine(IS)", "FUSION"),
  ("Fusion Engine (IS)", "FUSION"),
  ("Fusion", "FUSION"),
  ("Standard Fusion", "FUSION"),
  ("XL Engine", "XL"),
  ("XL Engine(IS)", "XL"),
  ("XL Engine (IS)", "XL"),
  ("XL Fusion Engine", "XL"),
  ("Extra-Light Engine", "XL"),
  ("XL Engine(Clan)", "CLAN_XL"),
  ("XL Engine (Clan)", "CLAN_XL"),
  ("Clan XL Engine", "CLAN_XL"),
  ("Light Engine", "LIGHT"),
  ("Light Engine(IS)", "LIGHT"),
  ("Light Fusion Engine", "LIGHT"),
  ("Compact Engine", "COMPACT"),
  ("Compact Fusion Engine", "COMPACT"),
  ("XXL Engine", "XXL"),
  ("XXL Engine(IS)", "XXL"),
  ("XXL Engine(Clan)", "CLAN_XXL"),
  ("ICE Engine", "ICE"),
  ("ICE", "ICE"),
  ("Internal Combustion Engine", "ICE"),
  ("Fuel Cell Engine", "FUEL_CELL"),
  ("Fuel Cell", "FUEL_CELL"),
  ("Fuel-Cell Engine", "FUEL_CELL"),
  ("Fission Engine", "FISSION"),
  ("Fission", "FISSION"),
  ("0", "FUSION"),
  ("1", "XL"),
  ("2", "LIGHT"),
  ("3", "COMPACT"),
  ("4", "CLAN_XL"),
  ("5", "XXL")]

/-- `map_engine_type` from the source: exact lookup, then ordered substring
heuristics on the uppercased input, then the default `FUSION`. -/
def map_engine_type (value : String) : String :=
  match List.lookup (pyStrip value) ENGINE_TYPE_MAP with
  | some v => v
  | none =>
    if strContains (pyUpper (pyStrip value)) "XXL" then "XXL"
    else if strContains (pyUpper (pyStrip value)) "XL" && strContains (pyUpper (pyStrip value)) "CLAN" then "CLAN_XL"
    else if strContains (pyUpper (pyStrip value)) "XL" then "XL"
    else if strContains (pyUpper (pyStrip value)) "LIGHT" then "LIGHT"
    else if strContains (pyUpper (pyStrip value)) "COMPACT" then "COMPACT"
    else if strContains (pyUpper (pyStrip value)) "ICE" || strContains (pyUpper (pyStrip value)) "COMBUSTION" then "ICE"
    else if strContains (pyUpper (pyStrip value)) "FUEL" || strContains (pyUpper (pyStrip value)) "CELL" then "FUEL_CELL"
    else if strContains (pyUpper (pyStrip value)) "FISSION" then "FISSION"
    else "FUSION"

/-- `GYRO_TYPE_MAP` from the source. -/
def GYRO_TYPE_MAP : List (String × String) := [
  ("Standard Gyro", "STANDARD"),
  ("Standard", "STANDARD"),
  ("XL Gyro", "XL"),
  ("Extra-Light Gyro", "XL"),
  ("Compact Gyro", "COMPACT"),
  ("Heavy Duty Gyro", "HEAVY_DUTY"),
  ("Heavy-Duty Gyro", "HEAVY_DUTY"),
  ("Superheavy Gyro", "SUPERHEAVY"),
  ("Super Heavy Gyro", "SUPERHEAVY"),
  ("None", "NONE"),
  ("0", "STANDARD"),
  ("1", "XL"),
  ("2", "COMPACT"),
  ("3", "HEAVY_DUTY"),
  ("4", "SUPERHEAVY")]

/-- `map_gyro_type` from the source. -/
def map_gyro_type (value : String) : String :=
  match List.lookup (pyStrip value) GYRO_TYPE_MAP with
  | some v => v
  | none =>
    if strContains (pyUpper (pyStrip value)) "SUPERHEAVY" || strContains (pyUpper (pyStrip value)) "SUPER HEAVY" then "SUPERHEAVY"
    else if strContains (pyUpper (pyStrip value)) "XL" || strContains (pyUpper (pyStrip value)) "EXTRA" then "XL"
    else if strContains (pyUpper (pyStrip value)) "COMPACT" then "COMPACT"
    else if strContains (pyUpper (pyStrip value)) "HEAVY" then "HEAVY_DUTY"
    else "STANDARD"

/-- `COCKPIT_TYPE_MAP` from the source. -/
def COCKPIT_TYPE_MAP : List (String × String) := [
  ("Standard Cockpit", "STANDARD"),
  ("Standard", "STANDARD"),
  ("Small Cockpit", "SMALL"),
  ("Small", "SMALL"),
  ("Command Console", "COMMAND_CONSOLE"),
  ("Torso-Mounted Cockpit", "TORSO_MOUNTED"),
  ("Torso Cockpit", "TORSO_MOUNTED"),
  ("Primitive Cockpit", "PRIMITIVE"),
  ("Primitive", "PRIMITIVE"),
  ("Industrial Cockpit", "INDUSTRIAL"),
  ("Industrial", "INDUSTRIAL"),
  ("Primitive Industrial Cockpit", "PRIMITIVE_INDUSTRIAL"),
  ("Primitive Industrial", "PRIMITIVE_INDUSTRIAL"),
  ("Superheavy Industrial Cockpit", "SUPERHEAVY_INDUSTRIAL"),
  ("Tripod Industrial Cockpit", "TRIPOD_INDUSTRIAL"),
  ("Superheavy Tripod Industrial Cockpit", "SUPERHEAVY_TRIPOD_INDUSTRIAL"),
  ("Superheavy Cockpit", "SUPERHEAVY"),
  ("Superheavy Tripod Cockpit", "SUPERHEAVY_TRIPOD"),
  ("Interface Cockpit", "INTERFACE"),
  ("QuadVee Cockpit", "QUADVEE")]

/-- `map_cockpit_type` from the source: exact lookup with default `STANDARD`. -/
def map_cockpit_type (value : String) : String :=
  (List.lookup (pyStrip value) COCKPIT_TYPE_MAP).getD "STANDARD"

/-- `STRUCTURE_TYPE_MAP` from the source. -/
def STRUCTURE_TYPE_MAP : List (String × String) := [
  ("Standard", "STANDARD"),
  ("IS Standard", "STANDARD"),
  ("Standard Structure", "STANDARD"),
  ("Endo Steel", "ENDO_STEEL"),
  ("IS Endo Steel", "ENDO_STEEL"),
  ("Endo-Steel", "ENDO_STEEL"),
  ("Clan Endo Steel", "ENDO_STEEL_CLAN"),
  ("Clan Endo-Steel", "ENDO_STEEL_CLAN"),
  ("Endo-Composite", "ENDO_COMPOSITE"),
  ("Endo Composite", "ENDO_COMPOSITE"),
  ("Reinforced", "REINFORCED"),
  ("Reinforced Structure", "REINFORCED"),
  ("Composite", "COMPOSITE"),
  ("Composite Structure", "COMPOSITE"),
  ("Industrial", "INDUSTRIAL"),
  ("Industrial Structure", "INDUSTRIAL")]

/-- `map_structure_type` from the source. -/
def map_structure_type (value : String) : String :=
  match List.lookup (pyStrip value) STRUCTURE_TYPE_MAP with
  | some v => v
  | none =>
    if strContains (pyUpper (pyStrip value)) "ENDO" && strContains (pyUpper (pyStrip value)) "COMPOSITE" then "ENDO_COMPOSITE"
    else if strContains (pyUpper (pyStrip value)) "ENDO" && strContains (pyUpper (pyStrip value)) "CLAN" then "ENDO_STEEL_CLAN"
    else if strContains (pyUpper (pyStrip value)) "ENDO" then "ENDO_STEEL"
    else if strContains (pyUpper (pyStrip value)) "REINFORCED" then "REINFORCED"
    else if strContains (pyUpper (pyStrip value)) "COMPOSITE" then "COMPOSITE"
    else if strContains (pyUpper (pyStrip value)) "INDUSTRIAL" then "INDUSTRIAL"
    else "STANDARD"

/-- `ARMOR_TYPE_MAP` from the source. -/
def ARMOR_TYPE_MAP : List (String × String) := [
  ("Standard", "STANDARD"),
  ("Standard Armor", "STANDARD"),
  ("Standard(Inner Sphere)", "STANDARD"),
  ("Ferro-Fibrous", "FERRO_FIBROUS"),
  ("Ferro-Fibrous Armor", "FERRO_FIBROUS"),
  ("Ferro-Fibrous(Inner Sphere)", "FERRO_FIBROUS"),
  ("IS Ferro-Fibrous", "FERRO_FIBROUS"),
  ("Clan Ferro-Fibrous", "FERRO_FIBROUS_CLAN"),
  ("Ferro-Fibrous(Clan)", "FERRO_FIBROUS_CLAN"),
  ("Light Ferro-Fibrous", "LIGHT_FERRO_FIBROUS"),
  ("Light Ferro-Fibrous Armor", "LIGHT_FERRO_FIBROUS"),
  ("Heavy Ferro-Fibrous", "HEAVY_FERRO_FIBROUS"),
  ("Heavy Ferro-Fibrous Armor", "HEAVY_FERRO_FIBROUS"),
  ("Stealth Armor", "STEALTH"),
  ("Stealth", "STEALTH"),
  ("Reactive Armor", "REACTIVE"),
  ("Reactive", "REACTIVE"),
  ("Reflective Armor", "REFLECTIVE"),
  ("Reflective", "REFLECTIVE"),
  ("Laser-Reflective", "REFLECTIVE"),
  ("Hardened Armor", "HARDENED"),
  ("Hardened", "HARDENED"),
  ("Primitive Armor", "PRIMITIVE"),
  ("Primitive", "PRIMITIVE"),
  ("Industrial Armor", "INDUSTRIAL"),
  ("Industrial", "INDUSTRIAL"),
  ("Commercial", "COMMERCIAL"),
  ("Commercial Armor", "COMMERCIAL"),
  ("Heavy Industrial", "HEAVY_INDUSTRIAL"),
  ("Heavy Industrial Armor", "HEAVY_INDUSTRIAL"),
  ("Impact-Resistant", "IMPACT_RESISTANT"),
  ("Impact-Resistant Armor", "IMPACT_RESISTANT")]

/-- `map_armor_type` from the source. -/
def map_armor_type (value : String) : String :=
  match List.lookup (pyStrip value) ARMOR_TYPE_MAP with
  | some v => v
  | none =>
    if strContains (pyUpper (pyStrip value)) "STEALTH" then "STEALTH"
    else if strContains (pyUpper (pyStrip value)) "REACTIVE" then "REACTIVE"
    else if strContains (pyUpper (pyStrip value)) "REFLECTIVE" || strContains (pyUpper (pyStrip value)) "LASER-REFLECT" then "REFLECTIVE"
    else if strContains (pyUpper (pyStrip value)) "HARDENED" then "HARDENED"
    else if strContains (pyUpper (pyStrip value)) "HEAVY" && strContains (pyUpper (pyStrip value)) "FERRO" then "HEAVY_FERRO_FIBROUS"
    else if strContains (pyUpper (pyStrip value)) "LIGHT" && strContains (pyUpper (pyStrip value)) "FERRO" then "LIGHT_FERRO_FIBROUS"
    else if strContains (pyUpper (pyStrip value)) "FERRO" && strContains (pyUpper (pyStrip value)) "CLAN" then "FERRO_FIBROUS_CLAN"
    else if strContains (pyUpper (pyStrip value)) "FERRO" then "FERRO_FIBROUS"
    else if strContains (pyUpper (pyStrip value)) "PRIMITIVE" then "PRIMITIVE"
    else if strContains (pyUpper (pyStrip value)) "COMMERCIAL" then "COMMERCIAL"
    else if strContains (pyUpper (pyStrip value)) "IMPACT" && strContains (pyUpper (pyStrip value)) "RESIST" then "IMPACT_RESISTANT"
    else if strContains (pyUpper (pyStrip value)) "HEAVY" && strContains (pyUpper (pyStrip value)) "INDUSTRIAL" then "HEAVY_INDUSTRIAL"
    else if strContains (pyUpper (pyStrip value)) "INDUSTRIAL" then "INDUSTRIAL"
    else "STANDARD"

/-- `HEAT_SINK_TYPE_MAP` from the source. -/
def HEAT_SINK_TYPE_MAP : List (String × String) := [
  ("Single", "SINGLE"),
  ("Single Heat Sink", "SINGLE"),
  ("Single Heat Sinks", "SINGLE"),
  ("Double", "DOUBLE"),
  ("Double Heat Sink", "DOUBLE"),
  ("Double Heat Sinks", "DOUBLE"),
  ("Double (IS)", "DOUBLE"),
  ("Double (Clan)", "DOUBLE_CLAN"),
  ("Clan Double Heat Sink", "DOUBLE_CLAN"),
  ("Clan Double", "DOUBLE_CLAN"),
  ("Compact", "COMPACT"),
  ("Compact Heat Sink", "COMPACT"),
  ("Laser", "LASER"),
  ("Laser Heat Sink", "LASER")]

/-- `map_heat_sink_type` from the source. -/
def map_heat_sink_type (value : String) : String :=
  match List.lookup (pyStrip value) HEAT_SINK_TYPE_MAP with
  | some v => v
  | none =>
    if strContains (pyUpper (pyStrip value)) "DOUBLE" && strContains (pyUpper (pyStrip value)) "CLAN" then "DOUBLE_CLAN"
    else if strContains (pyUpper (pyStrip value)) "DOUBLE" then "DOUBLE"
    else if strContains (pyUpper (pyStrip value)) "COMPACT" then "COMPACT"
    else if strContains (pyUpper (pyStrip value)) "LASER" then "LASER"
    else "SINGLE"

/-- `MECH_LOCATION_MAP` from the source. -/
def MECH_LOCATION_MAP : List (String × String) := [
  ("Head", "HEAD"),
  ("HD", "HEAD"),
  ("Center Torso", "CENTER_TORSO"),
  ("CT", "CENTER_TORSO"),
  ("Left Torso", "LEFT_TORSO"),
  ("LT", "LEFT_TORSO"),
  ("Right Torso", "RIGHT_TORSO"),
  ("RT", "RIGHT_TORSO"),
  ("Left Arm", "LEFT_ARM"),
  ("LA", "LEFT_ARM"),
  ("Right Arm", "RIGHT_ARM"),
  ("RA", "RIGHT_ARM"),
  ("Left Leg", "LEFT_LEG"),
  ("LL", "LEFT_LEG"),
  ("Right Leg", "RIGHT_LEG"),
  ("RL", "RIGHT_LEG"),
  ("Center Torso (Rear)", "CENTER_TORSO_REAR"),
  ("CTR", "CENTER_TORSO_REAR"),
  ("RTC", "CENTER_TORSO_REAR"),
  ("Left Torso (Rear)", "LEFT_TORSO_REAR"),
  ("LTR", "LEFT_TORSO_REAR"),
  ("RTL", "LEFT_TORSO_REAR"),
  ("Right Torso (Rear)", "RIGHT_TORSO_REAR"),
  ("RTR", "RIGHT_TORSO_REAR"),
  ("Front Left Leg", "FRONT_LEFT_LEG"),
  ("FLL", "FRONT_LEFT_LEG"),
  ("Front Right Leg", "FRONT_RIGHT_LEG"),
  ("FRL", "FRONT_RIGHT_LEG"),
  ("Rear Left Leg", "REAR_LEFT_LEG"),
  ("RLL", "REAR_LEFT_LEG"),
  ("Rear Right Leg", "REAR_RIGHT_LEG"),
  ("RRL", "REAR_RIGHT_LEG")]

/-- `ARMOR_LOCATION_KEY_MAP` from the source. -/
def ARMOR_LOCATION_KEY_MAP : List (String × String) := [
  ("la armor", "LEFT_ARM"),
  ("ra armor", "RIGHT_ARM"),
  ("lt armor", "LEFT_TORSO"),
  ("rt armor", "RIGHT_TORSO"),
  ("ct armor", "CENTER_TORSO"),
  ("hd armor", "HEAD"),
  ("ll armor", "LEFT_LEG"),
  ("rl armor", "RIGHT_LEG"),
  ("rtl armor", "LEFT_TORSO_REAR"),
  ("rtr armor", "RIGHT_TORSO_REAR"),
  ("rtc armor", "CENTER_TORSO_REAR"),
  ("la", "LEFT_ARM"),
  ("ra", "RIGHT_ARM"),
  ("lt", "LEFT_TORSO"),
  ("rt", "RIGHT_TORSO"),
  ("ct", "CENTER_TORSO"),
  ("hd", "HEAD"),
  ("ll", "LEFT_LEG"),
  ("rl", "RIGHT_LEG"),
  ("rtl", "LEFT_TORSO_REAR"),
  ("rtr", "RIGHT_TORSO_REAR"),
  ("rtc", "CENTER_TORSO_REAR")]

/-- `map_mech_location` from the source: exact lookup, lowercased lookup in
the armor-line key table, then the unguarded fallback which uppercases the
trimmed input and replaces spaces with underscores. -/
def map_mech_location (value : String) : String :=
  match List.lookup (pyStrip value) MECH_LOCATION_MAP with
  | some v => v
  | none =>
    match List.lookup (pyLower (pyStrip value)) ARMOR_LOCATION_KEY_MAP with
    | some v => v
    | none => pyReplace (pyUpper (pyStrip value)) " " "_"

/-- `MECH_CONFIG_MAP` from the source. -/
def MECH_CONFIG_MAP : List (String × String) := [
  ("Biped", "Biped"),
  ("Quad", "Quad"),
  ("Tripod", "Tripod"),
  ("LAM", "LAM"),
  ("QuadVee", "QuadVee"),
  ("Biped Omnimech", "Biped"),
  ("Quad Omnimech", "Quad")]

/-- `map_mech_config` from the source: exact lookup with default `Biped`. -/
def map_mech_config (value : String) : String :=
  (List.lookup (pyStrip value) MECH_CONFIG_MAP).getD "Biped"

/-- `map_year_to_era` from the source: half-open boundary-range
classification of an integer year. -/
def map_year_to_era (year : Int) : String :=
  if year < 2005 then "EARLY_SPACEFLIGHT"
  else if year < 2571 then "AGE_OF_WAR"
  else if year < 2781 then "STAR_LEAGUE"
  else if year < 3050 then "SUCCESSION_WARS"
  else if year < 3068 then "CLAN_INVASION"
  else if year < 3081 then "CIVIL_WAR"
  else if year < 3152 then "DARK_AGE"
  else "ILCLAN"

/-- `UNIT_TYPE_MAP` from the source. -/
def UNIT_TYPE_MAP : List (String × String) := [
  ("BattleMech", "BattleMech"),
  ("Mech", "BattleMech"),
  ("Biped", "BattleMech"),
  ("Quad", "BattleMech"),
  ("OmniMech", "OmniMech"),
  ("IndustrialMech", "IndustrialMech"),
  ("ProtoMech", "ProtoMech"),
  ("Tank", "Vehicle"),
  ("Vehicle", "Vehicle"),
  ("VTOL", "VTOL"),
  ("Aerospace", "Aerospace"),
  ("AeroSpaceFighter", "Aerospace"),
  ("Conventional Fighter", "Conventional Fighter"),
  ("ConvFighter", "Conventional Fighter"),
  ("Small Craft", "Small Craft"),
  ("SmallCraft", "Small Craft"),
  ("DropShip", "DropShip"),
  ("Dropship", "DropShip"),
  ("JumpShip", "JumpShip"),
  ("Jumpship", "JumpShip"),
  ("WarShip", "WarShip"),
  ("Warship", "WarShip"),
  ("Space Station", "Space Station"),
  ("SpaceStation", "Space Station"),
  ("Infantry", "Infantry"),
  ("BattleArmor", "Battle Armor"),
  ("Battle Armor", "Battle Armor"),
  ("Support Vehicle", "Support Vehicle"),
  ("SupportVehicle", "Support Vehicle")]

/-- `map_unit_type` from the source: exact lookup with default `BattleMech`. -/
def map_unit_type (value : String) : String :=
  (List.lookup (pyStrip value) UNIT_TYPE_MAP).getD "BattleMech"

/-- The dash-collapsing loop shared by both slug generators: Python
repeats `replace("--", "-")` while a double dash remains; every pass
strictly shortens the string, so `s.length` passes always suffice. -/
def collapseDashes : Nat → String → String
  | 0, s => s
  | fuel + 1, s =>
    if strContains s "--" then collapseDashes fuel (pyReplace s "--" "-") else s

/-- Python `s.strip("-")`: drop dashes from both ends. -/
def stripDashes (s : String) : String :=
  String.mk (((s.toList.dropWhile (· == '-')).reverse.dropWhile (· == '-')).reverse)

/-- `generate_id_from_name` from the source. -/
def generate_id_from_name (chassis model : String) : String :=
  let combined := pyLower (chassis ++ "-" ++ model)
  let s1 := pyReplace combined " " "-"
  let s2 := pyReplace s1 "/" "-"
  let s3 := pyReplace s2 "(" ""
  let s4 := pyReplace s3 ")" ""
  let s5 := pyReplace s4 "\x27" ""
  let s6 := pyReplace s5 "\"" ""
  let s7 := pyReplace s6 "." ""
  let s8 := pyReplace s7 "," ""
  stripDashes (collapseDashes s8.length s8)

/-- `normalize_equipment_id` from the source. -/
def normalize_equipment_id (name : String) : String :=
  let s0 := pyLower name
  let s1 := pyReplace s0 "(clan)" "clan"
  let s2 := pyReplace s1 "(is)" "is"
  let s3 := pyReplace s2 "(inner sphere)" "is"
  let s4 := pyReplace s3 "/" "-"
  let s5 := pyReplace s4 " " "-"
  let s6 := pyReplace s5 "(" ""
  let s7 := pyReplace s6 ")" ""
  let s8 := pyReplace s7 "\x27" ""
  let s9 := pyReplace s8 "\"" ""
  stripDashes (collapseDashes s9.length s9)

/-! ### Closed enumerations declared by the specification -/

/-- Declared tech-base enumeration. -/
def techBaseEnum : List String :=
  ["INNER_SPHERE", "CLAN", "MIXED", "BOTH"]

/-- Declared rules-level enumeration. -/
def rulesLevelEnum : List String :=
  ["INTRODUCTORY", "STANDARD", "ADVANCED", "EXPERIMENTAL", "UNOFFICIAL"]

/-- Declared engine-type enumeration. -/
def engineEnum : List String :=
  ["FUSION", "XL", "CLAN_XL", "LIGHT", "COMPACT", "XXL", "CLAN_XXL", "ICE",
   "FUEL_CELL", "FISSION"]

/-- Declared gyro-type enumeration. -/
def gyroEnum : List String :=
  ["STANDARD", "XL", "COMPACT", "HEAVY_DUTY", "SUPERHEAVY", "NONE"]

/-- Declared cockpit-type enumeration (14 members). -/
def cockpitEnum : List String :=
  ["STANDARD", "SMALL", "COMMAND_CONSOLE", "TORSO_MOUNTED", "PRIMITIVE",
   "INDUSTRIAL", "PRIMITIVE_INDUSTRIAL", "SUPERHEAVY_INDUSTRIAL",
   "TRIPOD_INDUSTRIAL", "SUPERHEAVY_TRIPOD_INDUSTRIAL", "SUPERHEAVY",
   "SUPERHEAVY_TRIPOD", "INTERFACE", "QUADVEE"]

/-- Declared structure-type enumeration. -/
def structureEnum : List String :=
  ["STANDARD", "ENDO_STEEL", "ENDO_STEEL_CLAN", "ENDO_COMPOSITE",
   "REINFORCED", "COMPOSITE", "INDUSTRIAL"]

/-- Declared armor-type enumeration. -/
def armorEnum : List String :=
  ["STANDARD", "FERRO_FIBROUS", "FERRO_FIBROUS_CLAN", "LIGHT_FERRO_FIBROUS",
   "HEAVY_FERRO_FIBROUS", "STEALTH", "REACTIVE", "REFLECTIVE", "HARDENED",
   "PRIMITIVE", "INDUSTRIAL", "COMMERCIAL", "HEAVY_INDUSTRIAL",
   "IMPACT_RESISTANT"]

/-- Declared heat-sink-type enumeration. -/
def heatSinkEnum : List String :=
  ["SINGLE", "DOUBLE", "DOUBLE_CLAN", "COMPACT", "LASER"]

/-- Declared mech-location enumeration. -/
def mechLocationEnum : List String :=
  ["HEAD", "CENTER_TORSO", "LEFT_TORSO", "RIGHT_TORSO", "LEFT_ARM",
   "RIGHT_ARM", "LEFT_LEG", "RIGHT_LEG", "CENTER_TORSO_REAR",
   "LEFT_TORSO_REAR", "RIGHT_TORSO_REAR", "FRONT_LEFT_LEG",
   "FRONT_RIGHT_LEG", "REAR_LEFT_LEG", "REAR_RIGHT_LEG"]

/-- Declared mech-configuration enumeration. -/
def mechConfigEnum : List String :=
  ["Biped", "Quad", "Tripod", "LAM", "QuadVee"]

/-- Declared unit-type enumeration. -/
def unitTypeEnum : List String :=
  ["BattleMech", "OmniMech", "IndustrialMech", "ProtoMech", "Vehicle",
   "VTOL", "Aerospace", "Conventional Fighter", "Small Craft", "DropShip",
   "JumpShip", "WarShip", "Space Station", "Infantry", "Battle Armor",
   "Support Vehicle"]

/-- Era tokens actually produced by `map_year_to_era` (eight of them). -/
def eraEnum : List String :=
  ["EARLY_SPACEFLIGHT", "AGE_OF_WAR", "STAR_LEAGUE", "SUCCESSION_WARS",
   "CLAN_INVASION", "CIVIL_WAR", "DARK_AGE", "ILCLAN"]

/-! ### Helper lemmas -/

/-- A successful association-list lookup returns one of the stored values. -/
theorem mem_snd_of_lookup {k v : String} :
    ∀ l : List (String × String), List.lookup k l = some v → v ∈ l.map Prod.snd := by
  intro l
  induction l with
  | nil => intro h; simp [List.lookup] at h
  | cons p t ih =>
    intro h
    obtain ⟨a, b⟩ := p
    simp only [List.lookup] at h
    by_cases hk : (k == a) = true
    · rw [hk] at h
      simp only [Option.some.injEq] at h
      simp [h]
    · rw [Bool.not_eq_true] at hk
      rw [hk] at h
      simpa using Or.inr (ih h)

/-- Range of `map_tech_base`. -/
theorem map_tech_base_mem (s : String) : map_tech_base s ∈ techBaseEnum := by
  have hsub : ∀ x ∈ TECH_BASE_MAP.map Prod.snd, x ∈ techBaseEnum := by decide
  unfold map_tech_base
  split
  · next v h => exact hsub v (mem_snd_of_lookup _ h)
  · cases h2 : List.lookup (pyTitle (pyStrip s)) TECH_BASE_MAP with
    | some v => simpa [h2] using hsub v (mem_snd_of_lookup _ h2)
    | none => simp [h2]; decide

/-- Range of `map_rules_level`. -/
theorem map_rules_level_mem (s : String) : map_rules_level s ∈ rulesLevelEnum := by
  have hsub : ∀ x ∈ RULES_LEVEL_MAP.map Prod.snd, x ∈ rulesLevelEnum := by decide
  unfold map_rules_level
  split
  · next v h => exact hsub v (mem_snd_of_lookup _ h)
  · split
    · next c _ =>
      cases h2 : List.lookup (String.singleton c) RULES_LEVEL_MAP with
      | some v => simpa [h2] using hsub v (mem_snd_of_lookup _ h2)
      | none => simp [h2]; decide
    · decide

/-- Range of `map_engine_type`. -/
theorem map_engine_type_mem (s : String) : map_engine_type s ∈ engineEnum := by
  have hsub : ∀ x ∈ ENGINE_TYPE_MAP.map Prod.snd, x ∈ engineEnum := by decide
  unfold map_engine_type
  split
  · next v h => exact hsub v (mem_snd_of_lookup _ h)
  · repeat' split
    all_goals decide

/-- Range of `map_gyro_type`. -/
theorem map_gyro_type_mem (s : String) : map_gyro_type s ∈ gyroEnum := by
  have hsub : ∀ x ∈ GYRO_TYPE_MAP.map Prod.snd, x ∈ gyroEnum := by decide
  unfold map_gyro_type
  split
  · next v h => exact hsub v (mem_snd_of_lookup _ h)
  · repeat' split
    all_goals decide

/-- Range of `map_cockpit_type`. -/
theorem map_cockpit_type_mem (s : String) : map_cockpit_type s ∈ cockpitEnum := by
  have hsub : ∀ x ∈ COCKPIT_TYPE_MAP.map Prod.snd, x ∈ cockpitEnum := by decide
  unfold map_cockpit_type
  cases h : List.lookup (pyStrip s) COCKPIT_TYPE_MAP with
  | some v => simpa [h] using hsub v (mem_snd_of_lookup _ h)
  | none => simp [h]; decide

/-- Range of `map_structure_type`. -/
theorem map_structure_type_mem (s : String) : map_structure_type s ∈ structureEnum := by
  have hsub : ∀ x ∈ STRUCTURE_TYPE_MAP.map Prod.snd, x ∈ structureEnum := by decide
  unfold map_structure_type
  split
  · next v h => exact hsub v (mem_snd_of_lookup _ h)
  · repeat' split
    all_goals decide

/-- Range of `map_armor_type`. -/
theorem map_armor_type_mem (s : String) : map_armor_type s ∈ armorEnum := by
  have hsub : ∀ x ∈ ARMOR_TYPE_MAP.map Prod.snd, x ∈ armorEnum := by decide
  unfold map_armor_type
  split
  · next v h => exact hsub v (mem_snd_of_lookup _ h)
  · by_cases h1 : strContains (pyUpper (pyStrip s)) "STEALTH" = true
    · rw [if_pos h1]; decide
    rw [if_neg h1]
    by_cases h2 : strContains (pyUpper (pyStrip s)) "REACTIVE" = true
    · rw [if_pos h2]; decide
    rw [if_neg h2]
    by_cases h3 : (strContains (pyUpper (pyStrip s)) "REFLECTIVE" || strContains (pyUpper (pyStrip s)) "LASER-REFLECT") = true
    · rw [if_pos h3]; decide
    rw [if_neg h3]
    by_cases h4 : strContains (pyUpper (pyStrip s)) "HARDENED" = true
    · rw [if_pos h4]; decide
    rw [if_neg h4]
    by_cases h5 : (strContains (pyUpper (pyStrip s)) "HEAVY" && strContains (pyUpper (pyStrip s)) "FERRO") = true
    · rw [if_pos h5]; decide
    rw [if_neg h5]
    by_cases h6 : (strContains (pyUpper (pyStrip s)) "LIGHT" && strContains (pyUpper (pyStrip s)) "FERRO") = true
    · rw [if_pos h6]; decide
    rw [if_neg h6]
    by_cases h7 : (strContains (pyUpper (pyStrip s)) "FERRO" && strContains (pyUpper (pyStrip s)) "CLAN") = true
    · rw [if_pos h7]; decide
    rw [if_neg h7]
    by_cases h8 : strContains (pyUpper (pyStrip s)) "FERRO" = true
    · rw [if_pos h8]; decide
    rw [if_neg h8]
    by_cases h9 : strContains (pyUpper (pyStrip s)) "PRIMITIVE" = true
    · rw [if_pos h9]; decide
    rw [if_neg h9]
    by_cases h10 : strContains (pyUpper (pyStrip s)) "COMMERCIAL" = true
    · rw [if_pos h10]; decide
    rw [if_neg h10]
    by_cases h11 : (strContains (pyUpper (pyStrip s)) "IMPACT" && strContains (pyUpper (pyStrip s)) "RESIST") = true
    · rw [if_pos h11]; decide
    rw [if_neg h11]
    by_cases h12 : (strContains (pyUpper (pyStrip s)) "HEAVY" && strContains (pyUpper (pyStrip s)) "INDUSTRIAL") = true
    · rw [if_pos h12]; decide
    rw [if_neg h12]
    by_cases h13 : strContains (pyUpper (pyStrip s)) "INDUSTRIAL" = true
    · rw [if_pos h13]; decide
    rw [if_neg h13]
    decide

/-- Range of `map_heat_sink_type`. -/
theorem map_heat_sink_type_mem (s : String) : map_heat_sink_type s ∈ heatSinkEnum := by
  have hsub : ∀ x ∈ HEAT_SINK_TYPE_MAP.map Prod.snd, x ∈ heatSinkEnum := by decide
  unfold map_heat_sink_type
  split
  · next v h => exact hsub v (mem_snd_of_lookup _ h)
  · repeat' split
    all_goals decide

/-- Range of `map_mech_config`. -/
theorem map_mech_config_mem (s : String) : map_mech_config s ∈ mechConfigEnum := by
  have hsub : ∀ x ∈ MECH_CONFIG_MAP.map Prod.snd, x ∈ mechConfigEnum := by decide
  unfold map_mech_config
  cases h : List.lookup (pyStrip s) MECH_CONFIG_MAP with
  | some v => simpa [h] using hsub v (mem_snd_of_lookup _ h)
  | none => simp [h]; decide

/-- Range of `map_unit_type`. -/
theorem map_unit_type_mem (s : String) : map_unit_type s ∈ unitTypeEnum := by
  have hsub : ∀ x ∈ UNIT_TYPE_MAP.map Prod.snd, x ∈ unitTypeEnum := by decide
  unfold map_unit_type
  cases h : List.lookup (pyStrip s) UNIT_TYPE_MAP with
  | some v => simpa [h] using hsub v (mem_snd_of_lookup _ h)
  | none => simp [h]; decide

/-! ### Claim theorems -/

/-- C1: Totality — every category mapping function returns a value on every
input string; in this embedding all eleven functions are total Lean
functions, so a result exists for any input, including the empty string and
strings matching no alias and no substring predicate. -/
theorem totality_all_mapping_functions :
    (∀ s : String, ∃ v, map_tech_base s = v) ∧
    (∀ s : String, ∃ v, map_rules_level s = v) ∧
    (∀ s : String, ∃ v, map_engine_type s = v) ∧
    (∀ s : String, ∃ v, map_gyro_type s = v) ∧
    (∀ s : String, ∃ v, map_cockpit_type s = v) ∧
    (∀ s : String, ∃ v, map_structure_type s = v) ∧
    (∀ s : String, ∃ v, map_armor_type s = v) ∧
    (∀ s : String, ∃ v, map_heat_sink_type s = v) ∧
    (∀ s : String, ∃ v, map_mech_location s = v) ∧
    (∀ s : String, ∃ v, map_mech_config s = v) ∧
    (∀ s : String, ∃ v, map_unit_type s = v) :=
  ⟨fun _ => ⟨_, rfl⟩, fun _ => ⟨_, rfl⟩, fun _ => ⟨_, rfl⟩, fun _ => ⟨_, rfl⟩,
   fun _ => ⟨_, rfl⟩, fun _ => ⟨_, rfl⟩, fun _ => ⟨_, rfl⟩, fun _ => ⟨_, rfl⟩,
   fun _ => ⟨_, rfl⟩, fun _ => ⟨_, rfl⟩, fun _ => ⟨_, rfl⟩⟩

/-- C2: Closed range — every category mapping function except
`map_mech_location` returns, for any input string, a member of that
category's declared closed enumeration (in particular `map_engine_type`
always lands in the ten engine tokens and `map_rules_level` in the five
rules-level tokens). -/
theorem closed_range_all_mapping_functions :
    (∀ s : String, map_tech_base s ∈ techBaseEnum) ∧
    (∀ s : String, map_rules_level s ∈ rulesLevelEnum) ∧
    (∀ s : String, map_engine_type s ∈ engineEnum) ∧
    (∀ s : String, map_gyro_type s ∈ gyroEnum) ∧
    (∀ s : String, map_cockpit_type s ∈ cockpitEnum) ∧
    (∀ s : String, map_structure_type s ∈ structureEnum) ∧
    (∀ s : String, map_armor_type s ∈ armorEnum) ∧
    (∀ s : String, map_heat_sink_type s ∈ heatSinkEnum) ∧
    (∀ s : String, map_mech_config s ∈ mechConfigEnum) ∧
    (∀ s : String, map_unit_type s ∈ unitTypeEnum) :=
  ⟨map_tech_base_mem, map_rules_level_mem, map_engine_type_mem,
   map_gyro_type_mem, map_cockpit_type_mem, map_structure_type_mem,
   map_armor_type_mem, map_heat_sink_type_mem, map_mech_config_mem,
   map_unit_type_mem⟩

/-- C5: Era boundaries are half-open — 3049 is still `SUCCESSION_WARS` and
3050 starts `CLAN_INVASION`; 3067 is still `CLAN_INVASION` and 3068 starts
`CIVIL_WAR`. -/
theorem era_boundary_scenarios :
    map_year_to_era 3049 = "SUCCESSION_WARS" ∧
    map_year_to_era 3050 = "CLAN_INVASION" ∧
    map_year_to_era 3067 = "CLAN_INVASION" ∧
    map_year_to_era 3068 = "CIVIL_WAR" :=
  ⟨by decide, by decide, by decide, by decide⟩

/-- C9: Slug scenarios — the two worked examples of the slug generators. -/
theorem slug_scenarios :
    generate_id_from_name "Atlas" "AS7-D" = "atlas-as7-d" ∧
    normalize_equipment_id "Gauss Rifle (Clan)" = "gauss-rifle-clan" :=
  ⟨by decide, by decide⟩

/-- C3 counterexample: `map_year_to_era` does not take its values in any
seven-element token set — eight pairwise distinct era tokens are reachable,
at years 2000, 2005, 2571, 2781, 3050, 3068, 3081 and 3152. -/
theorem era_seven_tokens_counterexample :
    ¬ ∃ T : Finset String, T.card = 7 ∧ ∀ y : Int, map_year_to_era y ∈ T := by
  rintro ⟨T, hcard, hall⟩
  have h1 : "EARLY_SPACEFLIGHT" ∈ T := by
    have h := hall 2000
    rwa [show map_year_to_era 2000 = "EARLY_SPACEFLIGHT" from by decide] at h
  have h2 : "AGE_OF_WAR" ∈ T := by
    have h := hall 2005
    rwa [show map_year_to_era 2005 = "AGE_OF_WAR" from by decide] at h
  have h3 : "STAR_LEAGUE" ∈ T := by
    have h := hall 2571
    rwa [show map_year_to_era 2571 = "STAR_LEAGUE" from by decide] at h
  have h4 : "SUCCESSION_WARS" ∈ T := by
    have h := hall 2781
    rwa [show map_year_to_era 2781 = "SUCCESSION_WARS" from by decide] at h
  have h5 : "CLAN_INVASION" ∈ T := by
    have h := hall 3050
    rwa [show map_year_to_era 3050 = "CLAN_INVASION" from by decide] at h
  have h6 : "CIVIL_WAR" ∈ T := by
    have h := hall 3068
    rwa [show map_year_to_era 3068 = "CIVIL_WAR" from by decide] at h
  have h7 : "DARK_AGE" ∈ T := by
    have h := hall 3081
    rwa [show map_year_to_era 3081 = "DARK_AGE" from by decide] at h
  have h8 : "ILCLAN" ∈ T := by
    have h := hall 3152
    rwa [show map_year_to_era 3152 = "ILCLAN" from by decide] at h
  have hsub : ({"EARLY_SPACEFLIGHT", "AGE_OF_WAR", "STAR_LEAGUE",
      "SUCCESSION_WARS", "CLAN_INVASION", "CIVIL_WAR", "DARK_AGE",
      "ILCLAN"} : Finset String) ⊆ T := by
    intro x hx
    simp only [Finset.mem_insert, Finset.mem_singleton] at hx
    rcases hx with rfl | rfl | rfl | rfl | rfl | rfl | rfl | rfl
    exacts [h1, h2, h3, h4, h5, h6, h7, h8]
  have hc := Finset.card_le_card hsub
  have h8card : ({"EARLY_SPACEFLIGHT", "AGE_OF_WAR", "STAR_LEAGUE",
      "SUCCESSION_WARS", "CLAN_INVASION", "CIVIL_WAR", "DARK_AGE",
      "ILCLAN"} : Finset String).card = 8 := by decide
  rw [hcard, h8card] at hc
  omega

/-- C3 amended: `map_year_to_era` is a boundary-range classification over
eight contiguous half-open integer intervals covering every integer, and
its result is always one of eight era tokens. -/
theorem map_year_to_era_eight_intervals :
    (∀ y : Int, y < 2005 → map_year_to_era y = "EARLY_SPACEFLIGHT") ∧
    (∀ y : Int, 2005 ≤ y → y < 2571 → map_year_to_era y = "AGE_OF_WAR") ∧
    (∀ y : Int, 2571 ≤ y → y < 2781 → map_year_to_era y = "STAR_LEAGUE") ∧
    (∀ y : Int, 2781 ≤ y → y < 3050 → map_year_to_era y = "SUCCESSION_WARS") ∧
    (∀ y : Int, 3050 ≤ y → y < 3068 → map_year_to_era y = "CLAN_INVASION") ∧
    (∀ y : Int, 3068 ≤ y → y < 3081 → map_year_to_era y = "CIVIL_WAR") ∧
    (∀ y : Int, 3081 ≤ y → y < 3152 → map_year_to_era y = "DARK_AGE") ∧
    (∀ y : Int, 3152 ≤ y → map_year_to_era y = "ILCLAN") ∧
    (∀ y : Int, map_year_to_era y ∈ eraEnum) := by
  refine ⟨?_, ?_, ?_, ?_, ?_, ?_, ?_, ?_, ?_⟩
  · intro y h
    unfold map_year_to_era
    rw [if_pos h]
  · intro y h1 h2
    unfold map_year_to_era
    rw [if_neg (by omega), if_pos h2]
  · intro y h1 h2
    unfold map_year_to_era
    rw [if_neg (by omega), if_neg (by omega), if_pos h2]
  · intro y h1 h2
    unfold map_year_to_era
    rw [if_neg (by omega), if_neg (by omega), if_neg (by omega), if_pos h2]
  · intro y h1 h2
    unfold map_year_to_era
    rw [if_neg (by omega), if_neg (by omega), if_neg (by omega),
      if_neg (by omega), if_pos h2]
  · intro y h1 h2
    unfold map_year_to_era
    rw [if_neg (by omega), if_neg (by omega), if_neg (by omega),
      if_neg (by omega), if_neg (by omega), if_pos h2]
  · intro y h1 h2
    unfold map_year_to_era
    rw [if_neg (by omega), if_neg (by omega), if_neg (by omega),
      if_neg (by omega), if_neg (by omega), if_neg (by omega), if_pos h2]
  · intro y h
    unfold map_year_to_era
    rw [if_neg (by omega), if_neg (by omega), if_neg (by omega),
      if_neg (by omega), if_neg (by omega), if_neg (by omega),
      if_neg (by omega)]
  · intro y
    unfold map_year_to_era
    repeat' split
    all_goals decide

/-- Witness for the amended C3 theorem at the concrete year 3100. -/
theorem map_year_to_era_eight_intervals_witness :
    map_year_to_era 3100 = "DARK_AGE" :=
  map_year_to_era_eight_intervals.2.2.2.2.2.2.1 3100 (by decide) (by decide)

/-- C4 counterexample: the empty string matches no heat-sink alias and no
fallback substring predicate, yet `map_heat_sink_type` returns `SINGLE`,
not the `STANDARD` stated by the claim. -/
theorem heat_sink_default_counterexample :
    List.lookup (pyStrip "") HEAT_SINK_TYPE_MAP = none ∧
    strContains (pyUpper (pyStrip "")) "DOUBLE" = false ∧
    strContains (pyUpper (pyStrip "")) "COMPACT" = false ∧
    strContains (pyUpper (pyStrip "")) "LASER" = false ∧
    map_heat_sink_type "" = "SINGLE" ∧
    map_heat_sink_type "" ≠ "STANDARD" := by
  refine ⟨by decide, by decide, by decide, by decide, by decide, by decide⟩

/-- C4 amended: for any input string that matches no alias in the heat-sink
table and whose uppercased trimmed form contains none of the fallback
substrings `DOUBLE`, `COMPACT`, `LASER`, `map_heat_sink_type` returns the
category's fixed default `SINGLE`. -/
theorem map_heat_sink_type_default (s : String)
    (h0 : List.lookup (pyStrip s) HEAT_SINK_TYPE_MAP = none)
    (h1 : strContains (pyUpper (pyStrip s)) "DOUBLE" = false)
    (h2 : strContains (pyUpper (pyStrip s)) "COMPACT" = false)
    (h3 : strContains (pyUpper (pyStrip s)) "LASER" = false) :
    map_heat_sink_type s = "SINGLE" := by
  simp [map_heat_sink_type, h0, h1, h2, h3]

/-- Witness for the amended C4 theorem at a concrete unrecognized input. -/
theorem map_heat_sink_type_default_witness :
    map_heat_sink_type "Mystery Sink" = "SINGLE" :=
  map_heat_sink_type_default "Mystery Sink" (by decide) (by decide)
    (by decide) (by decide)

/-- C6: the unguarded location fallback — when the trimmed input is in
neither location table, `map_mech_location` returns the trimmed input
uppercased with spaces replaced by underscores, with no membership check;
in particular `"Turret"` maps to `"TURRET"`, which lies outside the declared
location enumeration. -/
theorem map_mech_location_unguarded_fallback :
    (∀ s : String, List.lookup (pyStrip s) MECH_LOCATION_MAP = none →
      List.lookup (pyLower (pyStrip s)) ARMOR_LOCATION_KEY_MAP = none →
      map_mech_location s = pyReplace (pyUpper (pyStrip s)) " " "_") ∧
    map_mech_location "Turret" = "TURRET" ∧
    "TURRET" ∉ mechLocationEnum := by
  refine ⟨?_, by decide, by decide⟩
  intro s h1 h2
  simp [map_mech_location, h1, h2]

/-- Witness for C6's fallback clause at a concrete unrecognized input. -/
theorem map_mech_location_unguarded_fallback_witness :
    map_mech_location "Gun Pod" = "GUN_POD" :=
  (map_mech_location_unguarded_fallback.1 "Gun Pod" (by decide)
    (by decide)).trans (by decide)

/-- C7: armor priority ordering — the alias `"Heavy Ferro-Fibrous Armor"`
resolves to `HEAVY_FERRO_FIBROUS`, and in the fallback any non-alias input
whose uppercase contains both `HEAVY` and `FERRO` and matches none of the
earlier predicates resolves to the heavy variant, because the compound
predicate is evaluated before the single-substring `FERRO` predicate. -/
theorem map_armor_type_priority :
    map_armor_type "Heavy Ferro-Fibrous Armor" = "HEAVY_FERRO_FIBROUS" ∧
    (∀ s : String, List.lookup (pyStrip s) ARMOR_TYPE_MAP = none →
      strContains (pyUpper (pyStrip s)) "STEALTH" = false →
      strContains (pyUpper (pyStrip s)) "REACTIVE" = false →
      strContains (pyUpper (pyStrip s)) "REFLECTIVE" = false →
      strContains (pyUpper (pyStrip s)) "LASER-REFLECT" = false →
      strContains (pyUpper (pyStrip s)) "HARDENED" = false →
      strContains (pyUpper (pyStrip s)) "HEAVY" = true →
      strContains (pyUpper (pyStrip s)) "FERRO" = true →
      map_armor_type s = "HEAVY_FERRO_FIBROUS") := by
  refine ⟨by decide, ?_⟩
  intro s h0 hST hRA hRF hLR hHD hH hF
  simp only [map_armor_type, h0]
  rw [if_neg (by simp [hST]), if_neg (by simp [hRA]),
    if_neg (by simp [hRF, hLR]), if_neg (by simp [hHD]),
    if_pos (by simp [hH, hF])]

/-- Witness for C7's fallback clause at a concrete non-alias input. -/
theorem map_armor_type_priority_witness :
    map_armor_type "Super Heavy Ferro Armor" = "HEAVY_FERRO_FIBROUS" :=
  map_armor_type_priority.2 "Super Heavy Ferro Armor" (by decide) (by decide)
    (by decide) (by decide) (by decide) (by decide) (by decide) (by decide)

/-- C10 counterexample: the alias `"5"` is not a route to `CLAN_XXL` — in
`ENGINE_TYPE_MAP` the key `"5"` maps to `XXL`, so `map_engine_type "5"`
returns `XXL`, contradicting the claim that `CLAN_XXL` is reachable through
the exact alias `"5"`. -/
theorem engine_alias_five_counterexample :
    List.lookup "5" ENGINE_TYPE_MAP = some "XXL" ∧
    map_engine_type "5" = "XXL" ∧
    map_engine_type "5" ≠ "CLAN_XXL" :=
  ⟨by decide, by decide, by decide⟩

/-- C10 amended: for every input whose trimmed form is not an exact key of
`ENGINE_TYPE_MAP`, `map_engine_type` never returns `CLAN_XXL` (the
single-substring `XXL` test fires before the compound Clan test, so
`"Clan XXL Engine"` maps to `XXL`); `CLAN_XXL` is reachable only through
the exact alias `"XXL Engine(Clan)"`, the unique key with that value. -/
theorem map_engine_type_clan_xxl_unreachable :
    (∀ s : String, List.lookup (pyStrip s) ENGINE_TYPE_MAP = none →
      map_engine_type s ≠ "CLAN_XXL") ∧
    map_engine_type "Clan XXL Engine" = "XXL" ∧
    List.lookup "XXL Engine(Clan)" ENGINE_TYPE_MAP = some "CLAN_XXL" ∧
    (∀ p ∈ ENGINE_TYPE_MAP, p.2 = "CLAN_XXL" → p.1 = "XXL Engine(Clan)") := by
  refine ⟨?_, by decide, by decide, by decide⟩
  intro s h0
  simp only [map_engine_type, h0]
  repeat' split
  all_goals decide

/-- Witness for C10's fallback clause: the non-alias Clan XXL spelling does
not produce `CLAN_XXL`. -/
theorem map_engine_type_clan_xxl_unreachable_witness :
    map_engine_type "Clan XXL Engine" ≠ "CLAN_XXL" :=
  map_engine_type_clan_xxl_unreachable.1 "Clan XXL Engine" (by decide)

/-- If a canonical output of `map_tech_base` is itself a key of the table,
remapping it is the identity. -/
theorem idem_key_tech_base (x : String)
    (h : (List.lookup (map_tech_base x) TECH_BASE_MAP).isSome = true) :
    map_tech_base (map_tech_base x) = map_tech_base x :=
  have key : ∀ v ∈ techBaseEnum,
      (List.lookup v TECH_BASE_MAP).isSome = true → map_tech_base v = v := by
    decide
  key _ (map_tech_base_mem x) h

/-- If a canonical output of `map_rules_level` is itself a key of the table,
remapping it is the identity. -/
theorem idem_key_rules_level (x : String)
    (h : (List.lookup (map_rules_level x) RULES_LEVEL_MAP).isSome = true) :
    map_rules_level (map_rules_level x) = map_rules_level x :=
  have key : ∀ v ∈ rulesLevelEnum,
      (List.lookup v RULES_LEVEL_MAP).isSome = true → map_rules_level v = v := by
    decide
  key _ (map_rules_level_mem x) h

/-- If a canonical output of `map_engine_type` is itself a key of the table,
remapping it is the identity. -/
theorem idem_key_engine_type (x : String)
    (h : (List.lookup (map_engine_type x) ENGINE_TYPE_MAP).isSome = true) :
    map_engine_type (map_engine_type x) = map_engine_type x :=
  have key : ∀ v ∈ engineEnum,
      (List.lookup v ENGINE_TYPE_MAP).isSome = true → map_engine_type v = v := by
    decide
  key _ (map_engine_type_mem x) h

/-- If a canonical output of `map_gyro_type` is itself a key of the table,
remapping it is the identity. -/
theorem idem_key_gyro_type (x : String)
    (h : (List.lookup (map_gyro_type x) GYRO_TYPE_MAP).isSome = true) :
    map_gyro_type (map_gyro_type x) = map_gyro_type x :=
  have key : ∀ v ∈ gyroEnum,
      (List.lookup v GYRO_TYPE_MAP).isSome = true → map_gyro_type v = v := by
    decide
  key _ (map_gyro_type_mem x) h

/-- If a canonical output of `map_cockpit_type` is itself a key of the
table, remapping it is the identity. -/
theorem idem_key_cockpit_type (x : String)
    (h : (List.lookup (map_cockpit_type x) COCKPIT_TYPE_MAP).isSome = true) :
    map_cockpit_type (map_cockpit_type x) = map_cockpit_type x :=
  have key : ∀ v ∈ cockpitEnum,
      (List.lookup v COCKPIT_TYPE_MAP).isSome = true → map_cockpit_type v = v := by
    decide
  key _ (map_cockpit_type_mem x) h

/-- If a canonical output of `map_structure_type` is itself a key of the
table, remapping it is the identity. -/
theorem idem_key_structure_type (x : String)
    (h : (List.lookup (map_structure_type x) STRUCTURE_TYPE_MAP).isSome = true) :
    map_structure_type (map_structure_type x) = map_structure_type x :=
  have key : ∀ v ∈ structureEnum,
      (List.lookup v STRUCTURE_TYPE_MAP).isSome = true →
        map_structure_type v = v := by
    decide
  key _ (map_structure_type_mem x) h

/-- If a canonical output of `map_armor_type` is itself a key of the table,
remapping it is the identity. -/
theorem idem_key_armor_type (x : String)
    (h : (List.lookup (map_armor_type x) ARMOR_TYPE_MAP).isSome = true) :
    map_armor_type (map_armor_type x) = map_armor_type x :=
  have key : ∀ v ∈ armorEnum,
      (List.lookup v ARMOR_TYPE_MAP).isSome = true → map_armor_type v = v := by
    decide
  key _ (map_armor_type_mem x) h

/-- If a canonical output of `map_heat_sink_type` is itself a key of the
table, remapping it is the identity. -/
theorem idem_key_heat_sink_type (x : String)
    (h : (List.lookup (map_heat_sink_type x) HEAT_SINK_TYPE_MAP).isSome = true) :
    map_heat_sink_type (map_heat_sink_type x) = map_heat_sink_type x :=
  have key : ∀ v ∈ heatSinkEnum,
      (List.lookup v HEAT_SINK_TYPE_MAP).isSome = true →
        map_heat_sink_type v = v := by
    decide
  key _ (map_heat_sink_type_mem x) h

/-- If a canonical output of `map_mech_config` is itself a key of the table,
remapping it is the identity. -/
theorem idem_key_mech_config (x : String)
    (h : (List.lookup (map_mech_config x) MECH_CONFIG_MAP).isSome = true) :
    map_mech_config (map_mech_config x) = map_mech_config x :=
  have key : ∀ v ∈ mechConfigEnum,
      (List.lookup v MECH_CONFIG_MAP).isSome = true → map_mech_config v = v := by
    decide
  key _ (map_mech_config_mem x) h

/-- If a canonical output of `map_unit_type` is itself a key of the table,
remapping it is the identity. -/
theorem idem_key_unit_type (x : String)
    (h : (List.lookup (map_unit_type x) UNIT_TYPE_MAP).isSome = true) :
    map_unit_type (map_unit_type x) = map_unit_type x :=
  have key : ∀ v ∈ unitTypeEnum,
      (List.lookup v UNIT_TYPE_MAP).isSome = true → map_unit_type v = v := by
    decide
  key _ (map_unit_type_mem x) h

/-- C8 counterexample: `map_mech_location` violates the idempotence claim —
on input `"ctr"` the fallback produces `"CTR"`, which is a key of
`MECH_LOCATION_MAP`, and remapping it yields `"CENTER_TORSO_REAR"`, not
`"CTR"`. -/
theorem idempotence_counterexample :
    (List.lookup (map_mech_location "ctr") MECH_LOCATION_MAP).isSome = true ∧
    map_mech_location (map_mech_location "ctr") ≠ map_mech_location "ctr" :=
  ⟨by decide, by decide⟩

/-- C8 amended: for every category mapping function except
`map_mech_location`, and every input whose image is itself a key of that
category's alias table, applying the function twice equals applying it
once. -/
theorem idempotence_on_canonical_outputs :
    (∀ x : String, (List.lookup (map_tech_base x) TECH_BASE_MAP).isSome = true →
      map_tech_base (map_tech_base x) = map_tech_base x) ∧
    (∀ x : String, (List.lookup (map_rules_level x) RULES_LEVEL_MAP).isSome = true →
      map_rules_level (map_rules_level x) = map_rules_level x) ∧
    (∀ x : String, (List.lookup (map_engine_type x) ENGINE_TYPE_MAP).isSome = true →
      map_engine_type (map_engine_type x) = map_engine_type x) ∧
    (∀ x : String, (List.lookup (map_gyro_type x) GYRO_TYPE_MAP).isSome = true →
      map_gyro_type (map_gyro_type x) = map_gyro_type x) ∧
    (∀ x : String, (List.lookup (map_cockpit_type x) COCKPIT_TYPE_MAP).isSome = true →
      map_cockpit_type (map_cockpit_type x) = map_cockpit_type x) ∧
    (∀ x : String, (List.lookup (map_structure_type x) STRUCTURE_TYPE_MAP).isSome = true →
      map_structure_type (map_structure_type x) = map_structure_type x) ∧
    (∀ x : String, (List.lookup (map_armor_type x) ARMOR_TYPE_MAP).isSome = true →
      map_armor_type (map_armor_type x) = map_armor_type x) ∧
    (∀ x : String, (List.lookup (map_heat_sink_type x) HEAT_SINK_TYPE_MAP).isSome = true →
      map_heat_sink_type (map_heat_sink_type x) = map_heat_sink_type x) ∧
    (∀ x : String, (List.lookup (map_mech_config x) MECH_CONFIG_MAP).isSome = true →
      map_mech_config (map_mech_config x) = map_mech_config x) ∧
    (∀ x : String, (List.lookup (map_unit_type x) UNIT_TYPE_MAP).isSome = true →
      map_unit_type (map_unit_type x) = map_unit_type x) :=
  ⟨idem_key_tech_base, idem_key_rules_level, idem_key_engine_type,
   idem_key_gyro_type, idem_key_cockpit_type, idem_key_structure_type,
   idem_key_armor_type, idem_key_heat_sink_type, idem_key_mech_config,
   idem_key_unit_type⟩

/-- Witness for the amended C8 theorem: remapping the canonical output of
`map_unit_type "Mech"` (which is the table key `"BattleMech"`) is the
identity. -/
theorem idempotence_on_canonical_outputs_witness :
    map_unit_type (map_unit_type "Mech") = map_unit_type "Mech" :=
  idempotence_on_canonical_outputs.2.2.2.2.2.2.2.2.2 "Mech" (by decide)

end EnumMappings
